import Mathlib

/-!
Verification of the span-lifecycle engine of `tracing-datadog-apm-rust`.

The Rust source (src/subscriber.rs, src/datadog_client.rs,
src/instrumentation_actix_web.rs) is shallowly embedded below:

* `HashMap` values are modelled as partial functions `K → Option V`
  (`mapInsert` / `mapErase` mirror `insert` / `remove`);
* the thread-local `CURRENT_SPAN` stack of one execution context is a
  `List Nat` with its head as the top of the stack (Rust pushes and pops
  at the end of the `Vec`);
* `NonZeroU64` identifiers are `Nat` values, non-zeroness stated where a
  claim needs it; `u32` reference counts are `Nat` values kept below
  `2 ^ 32` by wrapping the increment (`% 2 ^ 32`), and the signed
  reinterpretation test of `try_close` is modelled by its exact predicate
  on the `u32` value, following two's-complement (release-build)
  semantics of the source's integer arithmetic;
* `SystemTime` values are nanoseconds since the UNIX epoch as `Nat`;
  `as_nanos() as u64` casts are `% 2 ^ 64`;
* randomness (`generate_id`) and clock reads (`SystemTime::now`) are
  passed in as explicit parameters (`fs`, `ft`, `now`);
* mutex locks are modelled as always succeeding (the `Err` branches of
  `lock()` are reachable only after a panic in another thread);
* the mpsc export channel is the `exported` list of the engine state:
  `Client::send_traces` appends the submitted `Traces` value;
* a Rust panic is modelled as `none` in an `Option` result
  (`new_span` panics via `unwrap()` when the span name is not in the
  mappings table; `record_follows_from` is `unimplemented!()`).
-/

namespace Dd

/-- Partial-function model of a `HashMap`: `insert` overwrites the entry. -/
def mapInsert {K V : Type} [DecidableEq K] (m : K → Option V) (k : K) (v : V) :
    K → Option V :=
  fun q => if q = k then some v else m q

/-- Partial-function model of `HashMap::remove` (result value ignored). -/
def mapErase {K V : Type} [DecidableEq K] (m : K → Option V) (k : K) :
    K → Option V :=
  fun q => if q = k then none else m q

/-- The empty map (`HashMap::new`). -/
def emptyMap {K V : Type} : K → Option V := fun _ => none

/-- Rust `SpanType` from src/datadog_client.rs. -/
inductive SpanType where
  | Web
  | Db
  | Cache
  | Custom
deriving DecidableEq

/-- Rust `SpanType::as_str` from src/datadog_client.rs. -/
def SpanType.as_str : SpanType → String
  | .Web => "web"
  | .Db => "db"
  | .Cache => "cache"
  | .Custom => "custom"

/-- Rust `SpanMetaKey` from src/datadog_client.rs. -/
inductive SpanMetaKey where
  | Service
  | Env
  | Version
  | HttpMethod
  | HttpUrl
  | HttpStatusCode
  | ErrorType
  | ErrorMsg
  | ErrorStack

/-- The `Display` impl of `SpanMetaKey` (the meta-map key strings). -/
def SpanMetaKey.asString : SpanMetaKey → String
  | .Service => "service"
  | .Env => "env"
  | .Version => "version"
  | .HttpMethod => "http.method"
  | .HttpUrl => "http.url"
  | .HttpStatusCode => "http.status_code"
  | .ErrorType => "error.type"
  | .ErrorMsg => "error.msg"
  | .ErrorStack => "error.stack"

/-- Rust `SpanBuilder` from src/datadog_client.rs.  Fields `span_id`, `trace_id` and
`parent_id` are `NonZeroU64` in the source, modelled as `Nat`; `start` is a
`SystemTime`, modelled as nanoseconds since the UNIX epoch. -/
structure SpanBuilder where
  error : Bool
  meta : String → Option String
  metrics : String → Option Nat
  name : String
  parent_id : Option Nat
  resource : String
  service : String
  span_id : Nat
  start : Nat
  trace_id : Nat
  type : SpanType

/-- Rust `SpanBuilder::default()` with the two `generate_id()` results and the
`SystemTime::now()` reading passed in explicitly. -/
def SpanBuilder.default (fs ft now : Nat) : SpanBuilder :=
  { error := false
    meta := emptyMap
    metrics := emptyMap
    name := ""
    parent_id := none
    resource := ""
    service := ""
    span_id := fs
    start := now
    trace_id := ft
    type := SpanType.Custom }

/-- Rust `SpanBuilder::add_meta`. -/
def SpanBuilder.add_meta (b : SpanBuilder) (k : SpanMetaKey) (v : String) :
    SpanBuilder :=
  { b with meta := mapInsert b.meta k.asString v }

/-- The immutable `Span` record from src/datadog_client.rs. -/
structure Span where
  duration : Nat
  error : Nat
  meta : String → Option String
  metrics : String → Option Nat
  name : String
  parent_id : Option Nat
  resource : String
  service : String
  span_id : Nat
  start : Nat
  trace_id : Nat
  type : String

/-- Rust `SpanBuilder::build`, with the `SystemTime::now()` reading at
finalization time passed in as `now`.  `duration_since` fails when the
start time is in the future and `unwrap_or_else` then yields 0, which is
exactly truncated `Nat` subtraction; the `as_nanos() as u64` casts
truncate to 64 bits. -/
def SpanBuilder.build (b : SpanBuilder) (now : Nat) : Span :=
  { duration := (now - b.start) % 2 ^ 64
    error := if b.error then 1 else 0
    meta := b.meta
    metrics := b.metrics
    name := b.name
    parent_id := b.parent_id
    resource := b.resource
    service := b.service
    span_id := b.span_id
    start := b.start % 2 ^ 64
    trace_id := b.trace_id
    type := b.type.as_str }

/-- Alias `Trace` = one finalized trace, a list of spans. -/
abbrev Trace := List Span

/-- Alias `Traces` = the unit submitted to the export channel. -/
abbrev Traces := List Trace

/-- Rust `FieldName` from src/subscriber.rs. -/
inductive FieldName where
  | TraceId
  | ParentId
  | Resource
  | Start
  | HttpMethod
  | HttpUrl
  | HttpStatusCode
  | ErrorType
  | ErrorMsg
  | ErrorStack

/-- Rust `FieldName::from_str` from src/subscriber.rs. -/
def FieldName.from_str (s : String) : Option FieldName :=
  if s = "trace_id" then some .TraceId
  else if s = "parent_id" then some .ParentId
  else if s = "resource" then some .Resource
  else if s = "start" then some .Start
  else if s = "http_method" then some .HttpMethod
  else if s = "http_url" then some .HttpUrl
  else if s = "http_status_code" then some .HttpStatusCode
  else if s = "error_type" then some .ErrorType
  else if s = "error_msg" then some .ErrorMsg
  else if s = "error_stack" then some .ErrorStack
  else none

/-- Decimal digit value of a character, `none` for a non-digit. -/
def digitVal (c : Char) : Option Nat :=
  if 48 ≤ c.toNat ∧ c.toNat ≤ 57 then some (c.toNat - 48) else none

/-- Accumulate decimal digits; fails on the first non-digit. -/
def parseDigitsAux : List Char → Nat → Option Nat
  | [], acc => some acc
  | c :: rest, acc =>
    match digitVal c with
    | some d => parseDigitsAux rest (acc * 10 + d)
    | none => none

/-- Model of the integer `from_str` parsers on a decimal string: all
characters must be digits and the string non-empty.  (The source
parsers also accept a leading plus sign; none of the claims depends on
that case.) -/
def parseNatDigits (s : String) : Option Nat :=
  match s.data with
  | [] => none
  | cs => parseDigitsAux cs 0

/-- Model of `NonZeroU64::from_str`: a decimal string parses to a value
that is non-zero and fits in 64 bits, otherwise the parse errors. -/
def parseNonZeroU64 (s : String) : Option Nat :=
  match parseNatDigits s with
  | none => none
  | some n => if n = 0 ∨ 2 ^ 64 ≤ n then none else some n

/-- Rust `Visit::record_u64` for `SpanBuilder` (src/subscriber.rs).  The `v`
argument is a `u64` value.  `NonZeroU64::new` rejects zero. -/
def SpanBuilder.record_u64 (b : SpanBuilder) (fname : String) (v : Nat) :
    SpanBuilder :=
  match FieldName.from_str fname with
  | none => b
  | some .TraceId => if v = 0 then b else { b with trace_id := v }
  | some .ParentId => if v = 0 then b else { b with parent_id := some v }
  | some .HttpStatusCode => b.add_meta .HttpStatusCode (toString v)
  | some .Start => { b with start := v }
  | some _ => b

/-- Rust `Visit::record_str` for `SpanBuilder` (src/subscriber.rs). -/
def SpanBuilder.record_str (b : SpanBuilder) (fname : String) (v : String) :
    SpanBuilder :=
  match FieldName.from_str fname with
  | none => b
  | some .TraceId =>
    match parseNonZeroU64 v with
    | some t => { b with trace_id := t }
    | none => b
  | some .ParentId =>
    match parseNonZeroU64 v with
    | some p => { b with parent_id := some p }
    | none => b
  | some .Resource => { b with resource := v }
  | some .Start => b
  | some .HttpMethod => b.add_meta .HttpMethod v
  | some .HttpStatusCode => b.add_meta .HttpStatusCode v
  | some .HttpUrl => b.add_meta .HttpUrl v
  | some .ErrorType => ({ b with error := true }).add_meta .ErrorType v
  | some .ErrorMsg => ({ b with error := true }).add_meta .ErrorMsg v
  | some .ErrorStack => ({ b with error := true }).add_meta .ErrorStack v

/-- A recorded field value: `record_u64` or `record_str`
(`record_debug` formats its value and delegates to `record_str`). -/
inductive FieldValue where
  | u64 (v : Nat)
  | str (s : String)

/-- A field as passed to the `Visit` impl: name and value. -/
abbrev RecField := String × FieldValue

/-- Dispatch of one field to the matching `Visit` method. -/
def SpanBuilder.applyField (b : SpanBuilder) (f : RecField) : SpanBuilder :=
  match f.2 with
  | .u64 v => b.record_u64 f.1 v
  | .str s => b.record_str f.1 s

/-- Rust `Record::record` / `Attributes::record`: visit each field in order. -/
def applyFields (b : SpanBuilder) (fs : List RecField) : SpanBuilder :=
  fs.foldl SpanBuilder.applyField b

/-- The immutable configuration of `TracingSubscriberDatadog`: the
name → (service, span type) mappings and the three DD_* environment
values read at construction time. -/
structure Config where
  mappings : String → Option (String × SpanType)
  dd_env : String
  dd_service : String
  dd_version : String

/-- The mutable state of the engine: the three id-keyed maps of
`TracingSubscriberDatadog`, the `CURRENT_SPAN` stack of one execution
context (head = top), and the sequence of `Traces` values submitted to
the export channel so far.  Static span metadata is represented by the
metadata name. -/
structure EngineState where
  span_builders : Nat → Option SpanBuilder
  span_metadata : Nat → Option String
  span_ref_count : Nat → Option Nat
  stack : List Nat
  exported : List Traces

/-- The engine state at construction: all maps empty, stack empty,
nothing exported. -/
def initState : EngineState :=
  { span_builders := emptyMap
    span_metadata := emptyMap
    span_ref_count := emptyMap
    stack := []
    exported := [] }

/-- Rust `Client::send_traces`: enqueue one `Traces` value on the channel. -/
def send_traces (traces : Traces) (channel : List Traces) : List Traces :=
  channel ++ [traces]

/-- Rust `Subscriber::enabled`: the name is in the mappings table. -/
def enabled (cfg : Config) (name : String) : Bool :=
  (cfg.mappings name).isSome

/-- Rust `current_span_id()`: top of the `CURRENT_SPAN` stack. -/
def current_span_id (st : EngineState) : Option Nat :=
  st.stack.head?

/-- Rust `Subscriber::new_span` (src/subscriber.rs lines 128-177).  Here `fs` and
`ft` are the two `generate_id()` results (span id and trace id of the
default builder), `now` the `SystemTime::now()` reading, `name` the span
metadata name and `fields` the fields recorded at start time.  Returns
`none` when `mappings.get(&name).unwrap()` panics, i.e. when the name is
not enabled; otherwise the new id and the updated state. -/
def new_span (cfg : Config) (fs ft now : Nat) (name : String)
    (fields : List RecField) (st : EngineState) :
    Option (Nat × EngineState) :=
  let b0 := SpanBuilder.default fs ft now
  match cfg.mappings name with
  | none => none
  | some (service, span_type) =>
    let b1 := { b0 with type := span_type, service := service, name := name }
    let b2 := ((b1.add_meta .Service cfg.dd_service).add_meta .Env
      cfg.dd_env).add_meta .Version cfg.dd_version
    let b3 :=
      match current_span_id st with
      | some parent_span_id =>
        let bp :=
          match st.span_builders parent_span_id with
          | some parent_span_builder =>
            { b2 with trace_id := parent_span_builder.trace_id }
          | none => b2
        { bp with parent_id := some parent_span_id }
      | none => b2
    let b4 := applyFields b3 fields
    some (fs,
      { st with
        span_builders := mapInsert st.span_builders fs b4
        span_metadata := mapInsert st.span_metadata fs name
        span_ref_count := mapInsert st.span_ref_count fs 1 })

/-- Wrapper: `new_span` with the panic case defaulted away (used to state claims
under the `enabled` precondition, where the panic cannot happen). -/
def runNewSpan (cfg : Config) (fs ft now : Nat) (name : String)
    (fields : List RecField) (st : EngineState) : Nat × EngineState :=
  (new_span cfg fs ft now name fields st).getD (0, st)

/-- Rust `Subscriber::record` (src/subscriber.rs lines 180-194): no-op when
the field set is empty or the builder is absent; otherwise apply the
fields to that builder. -/
def record (id : Nat) (values : List RecField) (st : EngineState) :
    EngineState :=
  if values.isEmpty then st
  else
    match st.span_builders id with
    | some b =>
      { st with span_builders := mapInsert st.span_builders id (applyFields b values) }
    | none => st

/-- Rust `Subscriber::record_follows_from` is `unimplemented!()`: every call
panics.  The panic is modelled as `none`; no value is ever returned to
the caller. -/
def record_follows_from (_span _follows : Nat) : Option Unit :=
  none

/-- Rust `Subscriber::event` (src/subscriber.rs lines 202-229): here `target` is
`none` for a contextual event (record onto the current span) and
`some parent` for an event with an explicit parent. -/
def event (target : Option Nat) (values : List RecField) (st : EngineState) :
    EngineState :=
  match target with
  | none =>
    match current_span_id st with
    | some id =>
      match st.span_builders id with
      | some b =>
        { st with span_builders := mapInsert st.span_builders id (applyFields b values) }
      | none => st
    | none => st
  | some parent_span =>
    match st.span_builders parent_span with
    | some b =>
      { st with span_builders := mapInsert st.span_builders parent_span (applyFields b values) }
    | none => st

/-- Rust `Subscriber::enter`: push the id onto the context stack. -/
def enter (id : Nat) (st : EngineState) : EngineState :=
  { st with stack := id :: st.stack }

/-- Rust `Subscriber::exit` (src/subscriber.rs lines 239-253): pop the top of
the context stack; the `Bool` result records whether a bookkeeping fault
was logged (popped id different from the passed id, or empty stack).
The source only logs and continues either way. -/
def exit (id : Nat) (st : EngineState) : EngineState × Bool :=
  match st.stack with
  | [] => (st, true)
  | popped_id :: rest => ({ st with stack := rest }, popped_id != id)

/-- Rust `Subscriber::clone_span` (src/subscriber.rs lines 256-268):
increment the ref count when present (a missing entry is a logged fault
and leaves the state unchanged); always return the same id.  The source
increment `*ref_count += 1` is on `u32`, which wraps modulo `2 ^ 32` in
a release build (a count of `u32::MAX` becomes 0); the model wraps the
same way. -/
def clone_span (id : Nat) (st : EngineState) : Nat × EngineState :=
  match st.span_ref_count id with
  | some ref_count =>
    (id, { st with
      span_ref_count := mapInsert st.span_ref_count id ((ref_count + 1) % 2 ^ 32) })
  | none => (id, st)

/-- Rust `Subscriber::try_close` (src/subscriber.rs lines 271-302), with the
finalization-time clock reading passed in as `now`.  The branch tests on
the `u32` count, under the two's-complement (release) semantics of the
source arithmetic:

* `*ref_count - 1 == 0` (wrapping `u32` subtraction) holds exactly when
  the count is 1: for count 0 the subtraction wraps to `u32::MAX`;
* `(*ref_count as i32 - 1) < 0` (the logged double-close fault branch,
  which returns false without decrementing) holds exactly when the count
  is 0 or greater than `2 ^ 31`: the `i32` reinterpretation of such a
  count is 0 or negative and the subtraction stays negative.  At count
  exactly `2 ^ 31` the reinterpretation is `i32::MIN` and subtracting 1
  wraps to `i32::MAX`, which is not negative, so that count falls
  through to the decrement;
* otherwise `*ref_count -= 1`.

The finalizing branch removes the builder, builds and submits the span,
removes the metadata entry and returns true; it does not touch the
ref-count entry. -/
def try_close (id : Nat) (now : Nat) (st : EngineState) : Bool × EngineState :=
  match st.span_ref_count id with
  | none => (false, st)
  | some ref_count =>
    if ref_count = 1 then
      match st.span_builders id with
      | some span_builder =>
        (true,
          { st with
            span_builders := mapErase st.span_builders id
            span_metadata := mapErase st.span_metadata id
            exported := send_traces [[span_builder.build now]] st.exported })
      | none =>
        (true, { st with span_metadata := mapErase st.span_metadata id })
    else if ref_count = 0 ∨ 2 ^ 31 < ref_count then (false, st)
    else
      (false, { st with span_ref_count := mapInsert st.span_ref_count id (ref_count - 1) })

/-- Rust `Subscriber::current_span` (src/subscriber.rs lines 305-316):
the top of the context stack together with its stored metadata, when
both lookups succeed. -/
def current_span (st : EngineState) : Option (Nat × String) :=
  match current_span_id st with
  | some id => (st.span_metadata id).map (fun m => (id, m))
  | none => none

/-- Model of `u64::from_str` on the candidate header values: a decimal
string that fits in 64 bits. -/
def parseU64 (s : String) : Option Nat :=
  match parseNatDigits s with
  | none => none
  | some n => if 2 ^ 64 ≤ n then none else some n

/-- ASCII whitespace test for the `trim` model. -/
def isWsp (c : Char) : Bool :=
  c = ' ' ∨ c = '\t' ∨ c = '\n' ∨ c = '\r'

/-- ASCII lower-casing of one character (the header names the source
compares against are all ASCII). -/
def lowerChar (c : Char) : Char :=
  if 65 ≤ c.toNat ∧ c.toNat ≤ 90 then Char.ofNat (c.toNat + 32) else c

/-- Model of `key.as_str().trim().to_lowercase()`: strip whitespace at
both ends, then lower-case. -/
def trimLower (s : String) : String :=
  String.mk ((((s.data.dropWhile isWsp).reverse.dropWhile isWsp).reverse).map
    lowerChar)

/-- Split a character list at every dash, like `str::split('-')`. -/
def splitDashAux : List Char → List Char → List String
  | [], acc => [String.mk acc.reverse]
  | c :: rest, acc =>
    if c = '-' then String.mk acc.reverse :: splitDashAux rest []
    else splitDashAux rest (c :: acc)

/-- Model of `s.split('-').collect::<Vec<_>>()`. -/
def splitDash (s : String) : List String :=
  splitDashAux s.data []

/-- One iteration of the header loop in `extract_trace_and_parent`
(src/instrumentation_actix_web.rs lines 151-176): the accumulator holds
the current candidate strings for trace id and parent id.  Each
recognized header overwrites its candidate; a `b3` header with at least
two dash-separated segments overwrites both. -/
def extractStep (acc : Option String × Option String) (h : String × String) :
    Option String × Option String :=
  let key := trimLower h.1
  if key = "x-datadog-trace-id" then (some h.2, acc.2)
  else if key = "x-datadog-parent-id" then (acc.1, some h.2)
  else if key = "x-b3-traceid" then (some h.2, acc.2)
  else if key = "x-b3-spanid" then (acc.1, some h.2)
  else if key = "b3" then
    match splitDash h.2 with
    | t :: p :: _ => (some t, some p)
    | _ => acc
  else acc

/-- Rust `extract_trace_and_parent` (src/instrumentation_actix_web.rs lines
148-181): fold the header list, then parse the final candidate strings
as `u64` values. -/
def extract_trace_and_parent (headers : List (String × String)) :
    Option Nat × Option Nat :=
  let acc := headers.foldl extractStep (none, none)
  (acc.1.bind parseU64, acc.2.bind parseU64)

/-- Iterate `k` successive `clone_span` calls on `id` (the returned id is always
`id` itself, so only the state is threaded). -/
def cloneN (id k : Nat) (s : EngineState) : EngineState :=
  match k with
  | 0 => s
  | Nat.succ k => cloneN id k (clone_span id s).2

/-- The list of results and the final state of `k` successive
`try_close` calls on `id`, all at clock reading `now`. -/
def closeResults (id now k : Nat) (s : EngineState) : List Bool × EngineState :=
  match k with
  | 0 => ([], s)
  | Nat.succ k =>
    let r := try_close id now s
    let rest := closeResults id now k r.2
    (r.1 :: rest.1, rest.2)

/-- One operation of the producer surface, for claims quantifying over
operation sequences. -/
inductive Op where
  | opNew (name : String) (fs ft now : Nat) (fields : List RecField)
  | opClone (id : Nat)
  | opClose (id : Nat) (now : Nat)

/-- The state effect of one operation.  A panicking `new_span` (disabled
name) leaves the state unchanged: the source panics on the `unwrap`
before touching any of the three maps. -/
def step (cfg : Config) (s : EngineState) : Op → EngineState
  | .opNew name fs ft now fields =>
    match new_span cfg fs ft now name fields s with
    | some r => r.2
    | none => s
  | .opClone id => (clone_span id s).2
  | .opClose id now => (try_close id now s).2

/-- Run a sequence of operations from a starting state. -/
def run (cfg : Config) (s : EngineState) (ops : List Op) : EngineState :=
  ops.foldl (step cfg) s

/-- The number of `clone_span` operations in a sequence. -/
def cloneCount : List Op → Nat
  | [] => 0
  | op :: rest =>
    match op with
    | Op.opClone _ => cloneCount rest + 1
    | _ => cloneCount rest

/-- A concrete configuration with one enabled span name, used by the
concrete evaluations below. -/
def cfg0 : Config :=
  { mappings := mapInsert emptyMap "checkout" ("shop", SpanType.Db)
    dd_env := "prod"
    dd_service := "svc"
    dd_version := "3" }

/-- The state after starting one "checkout" span with span id 5, trace
id 7 and start time 100 from the initial state. -/
def s1w : EngineState := (runNewSpan cfg0 5 7 100 "checkout" [] initState).2

/-- The builder stored for span 5 after one additional `clone_span`. -/
def b1w : SpanBuilder :=
  ((cloneN 5 1 s1w).span_builders 5).getD (SpanBuilder.default 0 0 0)

/-- C4: a builder finalized at clock reading `tf` whose recorded start
time is `ts` yields a span whose `duration` field equals `tf - ts`
nanoseconds and is non-negative (the bound `tf - ts < 2 ^ 64` makes the
`as u64` cast of `as_nanos()` lossless). -/
theorem build_duration_eq_elapsed (b : SpanBuilder) (ts tf : Nat)
    (hs : b.start = ts) (_h1 : ts ≤ tf) (h2 : tf - ts < 2 ^ 64) :
    (b.build tf).duration = tf - ts ∧ 0 ≤ (b.build tf).duration := by
  refine ⟨?_, Nat.zero_le _⟩
  have h2x : tf - ts < 18446744073709551616 := by simpa using h2
  simp [SpanBuilder.build, hs, Nat.mod_eq_of_lt h2x]

/-- Concrete instance of `build_duration_eq_elapsed`: a span started at
100 ns and finalized at 250 ns has duration 150 ns. -/
theorem build_duration_eq_elapsed_witness :
    (SpanBuilder.default 1 2 100).start = 100 ∧ 100 ≤ 250
      ∧ 250 - 100 < 2 ^ 64
      ∧ ((SpanBuilder.default 1 2 100).build 250).duration = 250 - 100
      ∧ 0 ≤ ((SpanBuilder.default 1 2 100).build 250).duration :=
  ⟨rfl, by decide, by decide,
    (build_duration_eq_elapsed (SpanBuilder.default 1 2 100) 100 250 rfl
      (by decide) (by decide)).1,
    (build_duration_eq_elapsed (SpanBuilder.default 1 2 100) 100 250 rfl
      (by decide) (by decide)).2⟩

/-- C5: recording a string field named `error_type` (likewise
`error_msg`, `error_stack`) with value `v` sets the error flag and
stores `v` under the corresponding meta key, so the built span has
`error = 1` and `meta "error.type" = v`; recording the u64 field
`http_status_code = 500` yields `meta "http.status_code" = "500"` on
the built span. -/
theorem error_and_status_fields_recorded (b : SpanBuilder) (v : String)
    (now : Nat) :
    ((b.record_str "error_type" v).error = true
      ∧ (b.record_str "error_type" v).meta "error.type" = some v
      ∧ ((b.record_str "error_type" v).build now).error = 1
      ∧ ((b.record_str "error_type" v).build now).meta "error.type" = some v)
    ∧ ((b.record_str "error_msg" v).error = true
      ∧ (b.record_str "error_msg" v).meta "error.msg" = some v)
    ∧ ((b.record_str "error_stack" v).error = true
      ∧ (b.record_str "error_stack" v).meta "error.stack" = some v)
    ∧ ((b.record_u64 "http_status_code" 500).build now).meta
        "http.status_code" = some "500" := by
  refine ⟨⟨?_, ?_, ?_, ?_⟩, ⟨?_, ?_⟩, ⟨?_, ?_⟩, ?_⟩ <;>
    simp [SpanBuilder.record_str, SpanBuilder.record_u64, FieldName.from_str,
      SpanBuilder.add_meta, SpanBuilder.build, mapInsert,
      SpanMetaKey.asString]
  rfl

/-- C6: `enter` then `exit` of the same id restores the context stack;
a mismatched or empty-stack `exit` reports a fault without corrupting
subsequent well-matched pairs (the last conjunct is the round trip on
the post-fault stack). -/
theorem enter_exit_round_trip (id top : Nat) (rest : List Nat)
    (st st2 : EngineState) (htop : st2.stack = top :: rest)
    (hne : top ≠ id) :
    exit id (enter id st) = (st, false)
    ∧ exit id st2 = ({ st2 with stack := rest }, true)
    ∧ exit id { st2 with stack := ([] : List Nat) }
        = ({ st2 with stack := ([] : List Nat) }, true)
    ∧ exit id (enter id (exit id st2).1) = ((exit id st2).1, false) := by
  refine ⟨?_, ?_, ?_, ?_⟩
  · simp [exit, enter]
  · simp [exit, htop, bne_iff_ne, hne]
  · simp [exit]
  · simp [exit, enter, htop]

/-- C3: parent linkage of `new_span`.  With a non-empty context stack
whose top id still has a builder in the table, the new builder inherits
that trace id and records the top id as parent; with an empty stack the
new builder has no parent and keeps its freshly generated non-zero
trace id `ft`; with a non-empty stack whose top id has no builder, the
parent id is still set but the trace id stays freshly generated. -/
theorem new_span_parent_linkage (cfg : Config) (fs ft now : Nat)
    (name service : String) (ty : SpanType) (st : EngineState)
    (hen : cfg.mappings name = some (service, ty)) (hft : 0 < ft) :
    (∀ parent rest pb, st.stack = parent :: rest →
      st.span_builders parent = some pb →
      ∃ nb, (runNewSpan cfg fs ft now name [] st).2.span_builders fs = some nb
        ∧ nb.trace_id = pb.trace_id ∧ nb.parent_id = some parent)
    ∧ (st.stack = [] →
      ∃ nb, (runNewSpan cfg fs ft now name [] st).2.span_builders fs = some nb
        ∧ nb.parent_id = none ∧ nb.trace_id = ft ∧ 0 < nb.trace_id)
    ∧ (∀ parent rest, st.stack = parent :: rest →
      st.span_builders parent = none →
      ∃ nb, (runNewSpan cfg fs ft now name [] st).2.span_builders fs = some nb
        ∧ nb.parent_id = some parent ∧ nb.trace_id = ft) := by
  refine ⟨?_, ?_, ?_⟩
  · intro parent rest pb hstk hpb
    simp [runNewSpan, new_span, hen, current_span_id, hstk, hpb,
      applyFields, mapInsert, SpanBuilder.add_meta, SpanBuilder.default]
  · intro hstk
    simp [runNewSpan, new_span, hen, current_span_id, hstk,
      applyFields, mapInsert, SpanBuilder.add_meta, SpanBuilder.default]
    exact hft
  · intro parent rest hstk hpb
    simp [runNewSpan, new_span, hen, current_span_id, hstk, hpb,
      applyFields, mapInsert, SpanBuilder.add_meta, SpanBuilder.default]

/-- Concrete instances of `new_span_parent_linkage`: a root span from
the empty stack, and a child span started under it. -/
theorem new_span_parent_linkage_witness :
    (cfg0.mappings "checkout" = some ("shop", SpanType.Db) ∧ 0 < (7 : Nat)
      ∧ initState.stack = [])
    ∧ (∃ nb, (runNewSpan cfg0 5 7 100 "checkout" [] initState).2.span_builders 5
        = some nb ∧ nb.parent_id = none ∧ nb.trace_id = 7 ∧ 0 < nb.trace_id) :=
  ⟨⟨by decide, by decide, rfl⟩,
    (new_span_parent_linkage cfg0 5 7 100 "checkout" "shop" SpanType.Db
      initState (by decide) (by decide)).2.1 rfl⟩

/-- C7 counterexample: with the headers `x-datadog-trace-id: 1` then
`x-b3-traceid: 2`, first-match-wins would yield trace id 1, but the
code overwrites the candidate on every match and yields 2. -/
theorem header_extraction_first_match_false :
    extract_trace_and_parent
        [("x-datadog-trace-id", "1"), ("x-b3-traceid", "2")] = (some 2, none)
    ∧ extract_trace_and_parent
        [("x-datadog-trace-id", "1"), ("x-b3-traceid", "2")] ≠ (some 1, none) := by
  constructor
  · rfl
  · decide

/-- C7 amended: header names are matched case-insensitively after
trimming; for each logical value the LAST matching header in iteration
order wins; a header matching one logical value leaves the other value
untouched; a `b3` header contributes its first two dash-separated
segments; the captured candidate strings are parsed as `u64` only after
the iteration, so a non-numeric final candidate yields an absent value
(`parseU64 v = none`). -/
theorem header_extraction_last_match_wins (hs : List (String × String))
    (k1 k2 k3 v1 v2 v3 t p : String) (more : List String)
    (hk1 : trimLower k1 = "x-datadog-trace-id"
      ∨ trimLower k1 = "x-b3-traceid")
    (hk2 : trimLower k2 = "x-datadog-parent-id"
      ∨ trimLower k2 = "x-b3-spanid")
    (hk3 : trimLower k3 = "b3")
    (hsplit : splitDash v3 = t :: p :: more) :
    extract_trace_and_parent (hs ++ [(k1, v1)])
      = (parseU64 v1, (extract_trace_and_parent hs).2)
    ∧ extract_trace_and_parent (hs ++ [(k2, v2)])
      = ((extract_trace_and_parent hs).1, parseU64 v2)
    ∧ extract_trace_and_parent (hs ++ [(k3, v3)])
      = (parseU64 t, parseU64 p) := by
  unfold extract_trace_and_parent
  simp only [List.foldl_append, List.foldl_cons, List.foldl_nil]
  refine ⟨?_, ?_, ?_⟩
  · rcases hk1 with h | h <;> simp [extractStep, h]
  · rcases hk2 with h | h <;> simp [extractStep, h]
  · simp [extractStep, hk3, hsplit]

/-- Concrete instance of `header_extraction_last_match_wins`: a later
`X-B3-TraceID` header (mixed case, leading blank) overrides an earlier
`b3` header, a non-numeric parent value parses to none, and a `B3`
header contributes its first two segments. -/
theorem header_extraction_last_match_wins_witness :
    (trimLower " X-B3-TraceID" = "x-b3-traceid"
      ∧ trimLower "x-datadog-parent-id" = "x-datadog-parent-id"
      ∧ trimLower "B3" = "b3"
      ∧ splitDash "4-5-0-6" = "4" :: "5" :: ["0", "6"])
    ∧ (extract_trace_and_parent [("b3", "9-8-1-7"), (" X-B3-TraceID", "2")]
        = (parseU64 "2", (extract_trace_and_parent [("b3", "9-8-1-7")]).2)
      ∧ extract_trace_and_parent [("b3", "9-8-1-7"), ("x-datadog-parent-id", "abc")]
        = ((extract_trace_and_parent [("b3", "9-8-1-7")]).1, parseU64 "abc")
      ∧ extract_trace_and_parent [("b3", "9-8-1-7"), ("B3", "4-5-0-6")]
        = (parseU64 "4", parseU64 "5")) :=
  ⟨⟨by decide, by decide, by decide, by decide⟩,
    header_extraction_last_match_wins [("b3", "9-8-1-7")] " X-B3-TraceID"
      "x-datadog-parent-id" "B3" "2" "abc" "4-5-0-6" "4" "5" ["0", "6"]
      (Or.inr (by decide)) (Or.inl (by decide)) (by decide) (by decide)⟩

/-- C8 counterexample: `record_follows_from` is `unimplemented!()` and
panics on every call, never returning a value to the caller — so the
producer surface is not panic-free as claimed. -/
theorem record_follows_from_panics : record_follows_from 1 2 = none := rfl

/-- C8 amended: every producer operation except `record_follows_from`
returns a plain value; in particular `new_span` cannot reach its
`unwrap` panic when the stated `enabled` precondition holds.
`record_follows_from` panics unconditionally. -/
theorem producer_surface_total_except_follows_from (cfg : Config)
    (fs ft now : Nat) (name service : String) (ty : SpanType)
    (fields : List RecField) (st : EngineState) (a b : Nat)
    (hen : cfg.mappings name = some (service, ty)) :
    (new_span cfg fs ft now name fields st).isSome = true
    ∧ record_follows_from a b = none :=
  ⟨by simp [new_span, hen], rfl⟩

/-- Concrete instance of `producer_surface_total_except_follows_from`
for the enabled name "checkout". -/
theorem producer_surface_total_witness :
    cfg0.mappings "checkout" = some ("shop", SpanType.Db)
    ∧ ((new_span cfg0 5 7 100 "checkout" [] initState).isSome = true
      ∧ record_follows_from 1 2 = none) :=
  ⟨by decide,
    producer_surface_total_except_follows_from cfg0 5 7 100 "checkout" "shop"
      SpanType.Db [] initState 1 2 (by decide)⟩

/-- C9: `record` is a no-op on an empty field set or an absent builder,
and otherwise mutates only the builder stored for the given id — every
other builder and every other state component is unchanged. -/
theorem record_frame (id : Nat) (fields : List RecField) (st : EngineState) :
    (fields = [] → record id fields st = st)
    ∧ (st.span_builders id = none → record id fields st = st)
    ∧ (∀ j, j ≠ id → (record id fields st).span_builders j = st.span_builders j)
    ∧ (record id fields st).span_metadata = st.span_metadata
    ∧ (record id fields st).span_ref_count = st.span_ref_count
    ∧ (record id fields st).stack = st.stack
    ∧ (record id fields st).exported = st.exported := by
  refine ⟨?_, ?_, ?_, ?_, ?_, ?_, ?_⟩
  · intro h; subst h; rfl
  · intro h; unfold record
    split
    · rfl
    · rw [h]
  · intro j hj; unfold record
    split
    · rfl
    · split
      · simp [mapInsert, hj]
      · rfl
  all_goals
    unfold record
    split
    · rfl
    · split <;> rfl

/-- Concrete instances of `record_frame`: empty field set, absent
builder, and the frame components after a real field write. -/
theorem record_frame_witness :
    record 5 [] s1w = s1w
    ∧ s1w.span_builders 9 = none
    ∧ record 9 [("resource", FieldValue.str "r")] s1w = s1w
    ∧ (record 5 [("resource", FieldValue.str "r")] s1w).span_builders 9
        = s1w.span_builders 9
    ∧ (record 5 [("resource", FieldValue.str "r")] s1w).stack = s1w.stack :=
  ⟨(record_frame 5 [] s1w).1 rfl, rfl,
    (record_frame 9 [("resource", FieldValue.str "r")] s1w).2.1 rfl,
    (record_frame 5 [("resource", FieldValue.str "r")] s1w).2.2.1 9 (by decide),
    (record_frame 5 [("resource", FieldValue.str "r")] s1w).2.2.2.2.2.1⟩

/-- Unfolding lemma: one `try_close` followed by `k` more. -/
theorem closeResults_succ_unfold (id now k : Nat) (s : EngineState) :
    closeResults id now (k + 1) s
      = ((try_close id now s).1
          :: (closeResults id now k (try_close id now s).2).1,
        (closeResults id now k (try_close id now s).2).2) := rfl

/-- Lemma: `cloneN` adds `k` to the ref count of `id` modulo `2 ^ 32`
(each increment wraps) and leaves the builder map, metadata map and
export channel untouched. -/
theorem cloneN_preserves (id : Nat) : ∀ (k c : Nat) (s : EngineState),
    c < 2 ^ 32 →
    s.span_ref_count id = some c →
    (cloneN id k s).span_ref_count id = some ((c + k) % 2 ^ 32)
    ∧ (cloneN id k s).span_builders = s.span_builders
    ∧ (cloneN id k s).span_metadata = s.span_metadata
    ∧ (cloneN id k s).exported = s.exported := by
  intro k
  induction k with
  | zero =>
    intro c s hclt h
    refine ⟨?_, rfl, rfl, rfl⟩
    have hz : (c + 0) % 2 ^ 32 = c := by
      rw [Nat.add_zero]
      exact Nat.mod_eq_of_lt hclt
    rw [hz]
    exact h
  | succ m ih =>
    intro c s hclt h
    have e1 : clone_span id s
        = (id, { s with
            span_ref_count := mapInsert s.span_ref_count id ((c + 1) % 2 ^ 32) }) := by
      simp [clone_span, h]
    have h2 : ({ s with
        span_ref_count := mapInsert s.span_ref_count id ((c + 1) % 2 ^ 32) }
        : EngineState).span_ref_count id = some ((c + 1) % 2 ^ 32) := by
      simp [mapInsert]
    have ihres := ih ((c + 1) % 2 ^ 32) _ (Nat.mod_lt _ (by norm_num)) h2
    have hunfold : cloneN id (m + 1) s = cloneN id m (clone_span id s).2 := rfl
    rw [hunfold, e1]
    refine ⟨?_, ihres.2.1, ihres.2.2.1, ihres.2.2.2⟩
    rw [ihres.1]
    congr 1
    rw [Nat.mod_add_mod]
    congr 1
    omega

/-- The first `k` `try_close` calls on a span whose ref count exceeds
`k` (but stays within the `i32`-positive range, at most `2 ^ 31`) all
return false and only decrement the ref count: the builder map, the
metadata map, the export channel and the stack are untouched. -/
theorem closeResults_decrements (id now : Nat) : ∀ (k c : Nat) (s : EngineState),
    s.span_ref_count id = some c → k < c → c ≤ 2 ^ 31 →
    (closeResults id now k s).1 = List.replicate k false
    ∧ (closeResults id now k s).2.span_builders = s.span_builders
    ∧ (closeResults id now k s).2.span_ref_count id = some (c - k)
    ∧ (closeResults id now k s).2.exported = s.exported := by
  intro k
  induction k with
  | zero => intro c s h _ _; exact ⟨rfl, rfl, by simpa using h, rfl⟩
  | succ m ih =>
    intro c s h hk hc
    have hne1 : c ≠ 1 := by omega
    have hcond : ¬(c = 0 ∨ 2 ^ 31 < c) := by
      push_neg
      exact ⟨by omega, hc⟩
    have e1 : try_close id now s
        = (false, { s with span_ref_count := mapInsert s.span_ref_count id (c - 1) }) := by
      simp only [try_close, h]
      rw [if_neg hne1, if_neg hcond]
    rw [closeResults_succ_unfold, e1]
    have h2 : ({ s with span_ref_count := mapInsert s.span_ref_count id (c - 1) }
        : EngineState).span_ref_count id = some (c - 1) := by
      simp [mapInsert]
    have ihres := ih (c - 1) _ h2 (by omega) (le_trans (Nat.sub_le c 1) hc)
    refine ⟨?_, ihres.2.1, ?_, ihres.2.2.2⟩
    · rw [ihres.1]
      simp [List.replicate_succ]
    · rw [ihres.2.2.1]
      congr 1
      omega

/-- A run of `try_close` calls equal in length to the ref count (at
most `2 ^ 31`, staying in the `i32`-positive range) returns false for
all but the last call; the last call returns true, removes the builder
and submits the built span to the export channel. -/
theorem closeResults_finalizes (id now : Nat) : ∀ (c : Nat) (s : EngineState)
    (b : SpanBuilder), s.span_ref_count id = some c → 1 ≤ c → c ≤ 2 ^ 31 →
    s.span_builders id = some b →
    (closeResults id now c s).1 = List.replicate (c - 1) false ++ [true]
    ∧ (closeResults id now c s).2.span_builders id = none
    ∧ (closeResults id now c s).2.exported
        = send_traces [[b.build now]] s.exported := by
  intro c
  induction c with
  | zero => intro s b _ hle _ _; exact absurd hle (by omega)
  | succ k ih =>
    intro s b h hle hc hb
    cases k with
    | zero =>
      rw [closeResults_succ_unfold]
      have e1 : try_close id now s
          = (true, { s with
              span_builders := mapErase s.span_builders id
              span_metadata := mapErase s.span_metadata id
              exported := send_traces [[b.build now]] s.exported }) := by
        simp [try_close, h, hb]
      rw [e1]
      exact ⟨rfl, by simp [closeResults, mapErase], rfl⟩
    | succ m =>
      rw [closeResults_succ_unfold]
      have hne1 : m + 1 + 1 ≠ 1 := by omega
      have hcond : ¬(m + 1 + 1 = 0 ∨ 2 ^ 31 < m + 1 + 1) := by
        push_neg
        exact ⟨by omega, hc⟩
      have e1 : try_close id now s
          = (false, { s with
              span_ref_count := mapInsert s.span_ref_count id (m + 1) }) := by
        simp only [try_close, h]
        rw [if_neg hne1, if_neg hcond]
        norm_num
      rw [e1]
      have h2 : ({ s with span_ref_count := mapInsert s.span_ref_count id (m + 1) }
          : EngineState).span_ref_count id = some (m + 1) := by
        simp [mapInsert]
      have ihres := ih _ b h2 (by omega) (le_trans (Nat.le_succ _) hc) hb
      refine ⟨?_, ihres.2.1, ihres.2.2⟩
      rw [ihres.1]
      simp [List.replicate_succ]

/-- C1 (amended): for `N ≤ 2 ^ 31`, a span started by `new_span` (ref
count 1) and cloned `N - 1` times requires exactly `N` `try_close`
calls: the first `N - 1` return false and leave the span open (its
builder still stored), the `N`-th returns true, removes the builder and
submits the built `Span` to the export channel.  The bound keeps every
count in the `i32`-positive range; at `N = 2 ^ 31 + 1` the source
instead takes the signed-reinterpretation fault branch on every close
and never finalizes (see the counterexample). -/
theorem refcount_close_sequence (cfg : Config) (fs ft t0 now N : Nat)
    (name : String) (fields : List RecField) (s0 s1 : EngineState)
    (id : Nat) (b : SpanBuilder) (hN : 1 ≤ N) (hN31 : N ≤ 2 ^ 31)
    (hstart : new_span cfg fs ft t0 name fields s0 = some (id, s1))
    (hb : (cloneN id (N - 1) s1).span_builders id = some b) :
    (closeResults id now N (cloneN id (N - 1) s1)).1
        = List.replicate (N - 1) false ++ [true]
    ∧ (closeResults id now (N - 1) (cloneN id (N - 1) s1)).2.span_builders id
        = some b
    ∧ (closeResults id now N (cloneN id (N - 1) s1)).2.span_builders id = none
    ∧ (closeResults id now N (cloneN id (N - 1) s1)).2.exported
        = send_traces [[b.build now]] (cloneN id (N - 1) s1).exported := by
  have h1 : s1.span_ref_count id = some 1 := by
    cases hm : cfg.mappings name with
    | none => simp [new_span, hm] at hstart
    | some p =>
      simp [new_span, hm] at hstart
      obtain ⟨rfl, hX⟩ := hstart
      subst hX
      simp [mapInsert]
  have hclone := cloneN_preserves id (N - 1) 1 s1 (by norm_num) h1
  have hrc : (cloneN id (N - 1) s1).span_ref_count id = some N := by
    rw [hclone.1]
    congr 1
    have heq : 1 + (N - 1) = N := by omega
    rw [heq]
    exact Nat.mod_eq_of_lt (lt_of_le_of_lt hN31 (by norm_num))
  have hall := closeResults_finalizes id now N (cloneN id (N - 1) s1) b hrc
    (by omega) hN31 hb
  have hpart := closeResults_decrements id now (N - 1) N (cloneN id (N - 1) s1)
    hrc (by omega) hN31
  refine ⟨hall.1, ?_, hall.2.1, hall.2.2⟩
  rw [hpart.2.1]
  exact hb

/-- Concrete instance of `refcount_close_sequence` with `N = 2`: one
`clone_span` after `new_span`, then two `try_close` calls returning
false then true. -/
theorem refcount_close_sequence_witness :
    (1 ≤ 2 ∧ 2 ≤ 2 ^ 31
      ∧ new_span cfg0 5 7 100 "checkout" [] initState = some (5, s1w)
      ∧ (cloneN 5 (2 - 1) s1w).span_builders 5 = some b1w)
    ∧ ((closeResults 5 200 2 (cloneN 5 (2 - 1) s1w)).1
          = List.replicate (2 - 1) false ++ [true]
      ∧ (closeResults 5 200 (2 - 1) (cloneN 5 (2 - 1) s1w)).2.span_builders 5
          = some b1w
      ∧ (closeResults 5 200 2 (cloneN 5 (2 - 1) s1w)).2.span_builders 5 = none
      ∧ (closeResults 5 200 2 (cloneN 5 (2 - 1) s1w)).2.exported
          = send_traces [[b1w.build 200]] (cloneN 5 (2 - 1) s1w).exported) :=
  ⟨⟨by omega, by norm_num, rfl, rfl⟩,
    refcount_close_sequence cfg0 5 7 100 200 2 "checkout" [] initState s1w 5
      b1w (by omega) (by norm_num) rfl rfl⟩

/-- Lemma: at a count whose `i32` reinterpretation is negative (above
`2 ^ 31`), `try_close` takes the fault branch: it returns false and
changes nothing. -/
theorem try_close_stuck_above_boundary (id now c : Nat) (s : EngineState)
    (h : s.span_ref_count id = some c) (hc : 2 ^ 31 < c) :
    try_close id now s = (false, s) := by
  have hc1 : c ≠ 1 := by omega
  simp only [try_close, h]
  rw [if_neg hc1, if_pos (Or.inr hc)]

/-- Lemma: every `try_close` in a run is stuck once the count is above
`2 ^ 31`: all results are false and the state never changes. -/
theorem closeResults_stuck_above_boundary (id now : Nat) : ∀ (k : Nat)
    (s : EngineState) (c : Nat),
    s.span_ref_count id = some c → 2 ^ 31 < c →
    closeResults id now k s = (List.replicate k false, s) := by
  intro k
  induction k with
  | zero => intro s c _ _; rfl
  | succ m ih =>
    intro s c h hc
    rw [closeResults_succ_unfold, try_close_stuck_above_boundary id now c s h hc]
    show (false :: (closeResults id now m s).1, (closeResults id now m s).2)
      = (List.replicate (m + 1) false, s)
    rw [ih s c h hc]
    rfl

/-- C1 counterexample: at `N = 2 ^ 31 + 1` (start plus `2 ^ 31`
`clone_span` calls) the claim fails: the count's `i32` reinterpretation
is negative, so all `N` `try_close` calls — including the `N`-th, which
the claim says returns true and finalizes — take the fault branch and
return false, and nothing is ever exported. -/
theorem close_sequence_fails_at_boundary :
    new_span cfg0 5 7 100 "checkout" [] initState = some (5, s1w)
    ∧ (cloneN 5 (2 ^ 31) s1w).span_ref_count 5 = some (2 ^ 31 + 1)
    ∧ (closeResults 5 200 (2 ^ 31 + 1) (cloneN 5 (2 ^ 31) s1w)).1
        = List.replicate (2 ^ 31 + 1) false
    ∧ (closeResults 5 200 (2 ^ 31 + 1) (cloneN 5 (2 ^ 31) s1w)).2.exported
        = (cloneN 5 (2 ^ 31) s1w).exported := by
  have h1 : s1w.span_ref_count 5 = some 1 := rfl
  have hrc := (cloneN_preserves 5 (2 ^ 31) 1 s1w (by norm_num) h1).1
  have hval : (1 + 2 ^ 31) % 2 ^ 32 = 2 ^ 31 + 1 := by norm_num
  rw [hval] at hrc
  have hstuck := closeResults_stuck_above_boundary 5 200 (2 ^ 31 + 1)
    (cloneN 5 (2 ^ 31) s1w) (2 ^ 31 + 1) hrc (by norm_num)
  exact ⟨rfl, hrc, by rw [hstuck], by rw [hstuck]⟩

/-- C2 counterexample: the finalizing `try_close` of span 5 leaves the
ref-count entry in place (still 1), so a second `try_close` on the
already-finalized id returns true again instead of reporting a fault
and returning false as the claim states. -/
theorem try_close_after_finalize_returns_true :
    (try_close 5 200 s1w).1 = true
    ∧ (try_close 5 200 s1w).2.span_ref_count 5 = some 1
    ∧ (try_close 5 300 ((try_close 5 200 s1w).2)).1 = true := by
  refine ⟨?_, ?_, ?_⟩ <;> rfl

/-- C2 amended: at most one `Span` is ever produced and exported per
id — the finalizing `try_close` removes the builder, so any later
`try_close` exports nothing — but the ref-count entry is NOT removed
(it stays at 1), and a subsequent `try_close` on the finalized id
returns true again (logging a missing-builder fault) rather than
returning false. -/
theorem finalize_once_refcount_not_removed (id now now2 : Nat)
    (s : EngineState) (h1 : s.span_ref_count id = some 1) :
    (try_close id now s).1 = true
    ∧ (try_close id now s).2.span_ref_count id = some 1
    ∧ (try_close id now s).2.span_builders id = none
    ∧ (try_close id now2 ((try_close id now s).2)).1 = true
    ∧ (try_close id now2 ((try_close id now s).2)).2.exported
        = (try_close id now s).2.exported := by
  cases hb : s.span_builders id with
  | some b =>
    have e1 : try_close id now s
        = (true, { s with
            span_builders := mapErase s.span_builders id
            span_metadata := mapErase s.span_metadata id
            exported := send_traces [[b.build now]] s.exported }) := by
      simp [try_close, h1, hb]
    rw [e1]
    have e2 : try_close id now2 ({ s with
        span_builders := mapErase s.span_builders id
        span_metadata := mapErase s.span_metadata id
        exported := send_traces [[b.build now]] s.exported } : EngineState)
        = (true, { s with
            span_builders := mapErase s.span_builders id
            span_metadata := mapErase (mapErase s.span_metadata id) id
            exported := send_traces [[b.build now]] s.exported }) := by
      simp [try_close, h1, mapErase]
    rw [e2]
    exact ⟨rfl, h1, by simp [mapErase], rfl, rfl⟩
  | none =>
    have e1 : try_close id now s
        = (true, { s with span_metadata := mapErase s.span_metadata id }) := by
      simp [try_close, h1, hb]
    rw [e1]
    have e2 : try_close id now2
        ({ s with span_metadata := mapErase s.span_metadata id } : EngineState)
        = (true, { s with
            span_metadata := mapErase (mapErase s.span_metadata id) id }) := by
      simp [try_close, h1, hb]
    rw [e2]
    exact ⟨rfl, h1, hb, rfl, rfl⟩

/-- Concrete instance of `finalize_once_refcount_not_removed` on the
state after starting span 5. -/
theorem finalize_once_witness :
    s1w.span_ref_count 5 = some 1
    ∧ ((try_close 5 200 s1w).1 = true
      ∧ (try_close 5 200 s1w).2.span_ref_count 5 = some 1
      ∧ (try_close 5 200 s1w).2.span_builders 5 = none
      ∧ (try_close 5 300 ((try_close 5 200 s1w).2)).1 = true
      ∧ (try_close 5 300 ((try_close 5 200 s1w).2)).2.exported
          = (try_close 5 200 s1w).2.exported) :=
  ⟨rfl, finalize_once_refcount_not_removed 5 200 300 s1w rfl⟩

/-- Lemma: `cloneCount` splits off the head operation. -/
theorem cloneCount_cons (op : Op) (rest : List Op) :
    cloneCount (op :: rest) = cloneCount [op] + cloneCount rest := by
  cases op <;> (simp [cloneCount]; try omega)

/-- Lemma: one operation preserves the bounded ref-count invariant.
The budget `n` is the number of clone operations still to come; the
head operation consumes `cloneCount [op]` of the incoming budget. -/
theorem step_refcount_bounds (cfg : Config) (s : EngineState) (op : Op) (n : Nat)
    (hn : n + 1 ≤ 2 ^ 31)
    (h : ∀ j d, s.span_ref_count j = some d →
      1 ≤ d ∧ d + cloneCount [op] + n ≤ 2 ^ 31) :
    ∀ j d, (step cfg s op).span_ref_count j = some d →
      1 ≤ d ∧ d + n ≤ 2 ^ 31 := by
  cases op with
  | opNew name fs ft now fields =>
    cases hm : cfg.mappings name with
    | none =>
      intro j d hd
      simp only [step, new_span, hm] at hd
      have := h j d hd
      simp only [cloneCount] at this
      omega
    | some p =>
      intro j d hd
      simp only [step, new_span, hm] at hd
      by_cases hj : j = fs
      · simp [mapInsert, hj] at hd
        omega
      · simp [mapInsert, hj] at hd
        have := h j d hd
        simp only [cloneCount] at this
        omega
  | opClone id =>
    cases hrc : s.span_ref_count id with
    | none =>
      intro j d hd
      simp only [step, clone_span, hrc] at hd
      have := h j d hd
      simp only [cloneCount] at this
      omega
    | some c =>
      have hc := h id c hrc
      simp only [cloneCount] at hc
      have hwrap : (c + 1) % 2 ^ 32 = c + 1 :=
        Nat.mod_eq_of_lt (by omega)
      intro j d hd
      simp only [step, clone_span, hrc] at hd
      by_cases hj : j = id
      · simp [mapInsert, hj, hwrap] at hd
        omega
      · simp [mapInsert, hj] at hd
        have := h j d hd
        simp only [cloneCount] at this
        omega
  | opClose id now =>
    have hplain : ∀ j d, s.span_ref_count j = some d → 1 ≤ d ∧ d + n ≤ 2 ^ 31 := by
      intro j d hd
      have := h j d hd
      simp only [cloneCount] at this
      omega
    cases hrc : s.span_ref_count id with
    | none =>
      intro j d hd
      simp only [step, try_close, hrc] at hd
      exact hplain j d hd
    | some c =>
      by_cases hc1 : c = 1
      · subst hc1
        cases hb : s.span_builders id with
        | some b =>
          intro j d hd
          simp only [step, try_close, hrc, hb, if_pos rfl] at hd
          exact hplain j d hd
        | none =>
          intro j d hd
          simp only [step, try_close, hrc, hb, if_pos rfl] at hd
          exact hplain j d hd
      · by_cases hfault : c = 0 ∨ 2 ^ 31 < c
        · intro j d hd
          simp only [step, try_close, hrc, if_neg hc1, if_pos hfault] at hd
          exact hplain j d hd
        · intro j d hd
          simp only [step, try_close, hrc, if_neg hc1, if_neg hfault] at hd
          by_cases hj : j = id
          · simp [mapInsert, hj] at hd
            have := hplain id c hrc
            omega
          · simp [mapInsert, hj] at hd
            exact hplain j d hd

/-- Lemma: the bounded ref-count invariant is preserved by any run
whose clone budget fits below the `i32` sign boundary. -/
theorem run_refcount_bounds (cfg : Config) : ∀ (ops : List Op) (s : EngineState),
    cloneCount ops ≤ 2 ^ 31 - 1 →
    (∀ j d, s.span_ref_count j = some d →
      1 ≤ d ∧ d + cloneCount ops ≤ 2 ^ 31) →
    ∀ j d, (run cfg s ops).span_ref_count j = some d →
      1 ≤ d ∧ d ≤ 2 ^ 31 := by
  intro ops
  induction ops with
  | nil =>
    intro s _ h j d hd
    have := h j d hd
    simp only [cloneCount] at this
    omega
  | cons op rest ih =>
    intro s hB h
    have hsplit := cloneCount_cons op rest
    have hrest : cloneCount rest ≤ 2 ^ 31 - 1 := by omega
    have hn : cloneCount rest + 1 ≤ 2 ^ 31 := by omega
    refine ih (step cfg s op) hrest ?_
    refine step_refcount_bounds cfg s op (cloneCount rest) hn ?_
    intro j d hd
    have := h j d hd
    omega

/-- C10 (amended): after any sequence of `new_span`, `clone_span` and
`try_close` operations containing at most `2 ^ 31 - 1` clone
operations (from a state whose stored counts respect the matching
budget, e.g. the initial state), every value stored in the ref-count
map lies in `[1, 2 ^ 31]`; consequently no stored count satisfies the
double-close fault condition of `try_close` (count 0, or `i32`-negative
count above `2 ^ 31`), that branch stays unreachable, and the `u32`
subtraction `ref_count - 1` in the finalization test never underflows.
Without the clone bound the fault branch is reachable and a count can
wrap to 0 (see the counterexample). -/
theorem refcount_invariant_bounded (cfg : Config) (ops : List Op)
    (s0 : EngineState) (i c : Nat)
    (hB : cloneCount ops ≤ 2 ^ 31 - 1)
    (h0 : ∀ j d, s0.span_ref_count j = some d →
      1 ≤ d ∧ d + cloneCount ops ≤ 2 ^ 31)
    (hc : (run cfg s0 ops).span_ref_count i = some c) :
    1 ≤ c ∧ c ≤ 2 ^ 31 ∧ ¬(c = 0 ∨ 2 ^ 31 < c) := by
  have h := run_refcount_bounds cfg ops s0 hB h0 i c hc
  refine ⟨h.1, h.2, ?_⟩
  rintro (rfl | hlt)
  · exact absurd h.1 (by norm_num)
  · exact absurd h.2 (not_le.mpr hlt)

/-- Concrete instance of `refcount_invariant_bounded`: start plus one
clone yields ref count 2 for span 5, within all bounds. -/
theorem refcount_invariant_bounded_witness :
    (cloneCount [Op.opNew "checkout" 5 7 100 [], Op.opClone 5] ≤ 2 ^ 31 - 1
      ∧ (run cfg0 initState [Op.opNew "checkout" 5 7 100 [], Op.opClone 5]).span_ref_count 5
          = some 2)
    ∧ (1 ≤ 2 ∧ 2 ≤ 2 ^ 31 ∧ ¬((2 : Nat) = 0 ∨ 2 ^ 31 < 2)) :=
  ⟨⟨by norm_num [cloneCount], rfl⟩,
    refcount_invariant_bounded cfg0 [Op.opNew "checkout" 5 7 100 [], Op.opClone 5]
      initState 5 2 (by norm_num [cloneCount])
      (fun j d hd => by simp [initState, emptyMap] at hd) rfl⟩

/-- Lemma: running a sequence of repeated `clone_span` operations is
`cloneN`. -/
theorem run_replicate_clone (cfg : Config) (id : Nat) : ∀ (k : Nat)
    (s : EngineState),
    run cfg s (List.replicate k (Op.opClone id)) = cloneN id k s := by
  intro k
  induction k with
  | zero => intro s; rfl
  | succ m ih => intro s; exact ih (clone_span id s).2

/-- C10 counterexample: the unbounded claim fails on the source's `u32`
arithmetic.  After starting span 5 and performing `2 ^ 31` clones (no
wrap involved) the stored count is `2 ^ 31 + 1`; a `try_close` then
takes the double-close fault branch — it returns false and does not
decrement, although the count is at least 2.  And after `2 ^ 32 - 1`
clones the increment wraps: the stored count is 0, falsifying `every
stored value is at least 1`. -/
theorem double_close_branch_reachable :
    (run cfg0 s1w (List.replicate (2 ^ 31) (Op.opClone 5))).span_ref_count 5
        = some (2 ^ 31 + 1)
    ∧ (try_close 5 200 (run cfg0 s1w (List.replicate (2 ^ 31) (Op.opClone 5)))).1
        = false
    ∧ (try_close 5 200 (run cfg0 s1w (List.replicate (2 ^ 31) (Op.opClone 5)))).2
        = run cfg0 s1w (List.replicate (2 ^ 31) (Op.opClone 5))
    ∧ (run cfg0 s1w (List.replicate (2 ^ 32 - 1) (Op.opClone 5))).span_ref_count 5
        = some 0 := by
  have h1 : s1w.span_ref_count 5 = some 1 := rfl
  have hrun : run cfg0 s1w (List.replicate (2 ^ 31) (Op.opClone 5))
      = cloneN 5 (2 ^ 31) s1w := run_replicate_clone cfg0 5 (2 ^ 31) s1w
  have hrc := (cloneN_preserves 5 (2 ^ 31) 1 s1w (by norm_num) h1).1
  have hval : (1 + 2 ^ 31) % 2 ^ 32 = 2 ^ 31 + 1 := by norm_num
  rw [hval] at hrc
  have hstuck := try_close_stuck_above_boundary 5 200 (2 ^ 31 + 1)
    (cloneN 5 (2 ^ 31) s1w) hrc (by norm_num)
  have hrun2 : run cfg0 s1w (List.replicate (2 ^ 32 - 1) (Op.opClone 5))
      = cloneN 5 (2 ^ 32 - 1) s1w := run_replicate_clone cfg0 5 (2 ^ 32 - 1) s1w
  have hwrap := (cloneN_preserves 5 (2 ^ 32 - 1) 1 s1w (by norm_num) h1).1
  have hval2 : (1 + (2 ^ 32 - 1)) % 2 ^ 32 = 0 := by norm_num
  rw [hval2] at hwrap
  refine ⟨?_, ?_, ?_, ?_⟩
  · rw [hrun]; exact hrc
  · rw [hrun, hstuck]
  · rw [hrun, hstuck]
  · rw [hrun2]; exact hwrap

/-- Concrete instance of `enter_exit_round_trip` on the stack `[2]`
with a mismatched exit of id 1. -/
theorem enter_exit_round_trip_witness :
    (enter 2 initState).stack = 2 :: ([] : List Nat)
    ∧ (exit 1 (enter 1 initState) = (initState, false)
      ∧ exit 1 (enter 2 initState)
          = ({ enter 2 initState with stack := ([] : List Nat) }, true)
      ∧ exit 1 { enter 2 initState with stack := ([] : List Nat) }
          = ({ enter 2 initState with stack := ([] : List Nat) }, true)
      ∧ exit 1 (enter 1 (exit 1 (enter 2 initState)).1)
          = ((exit 1 (enter 2 initState)).1, false)) :=
  ⟨rfl, enter_exit_round_trip 1 2 [] initState (enter 2 initState) rfl
    (by decide)⟩

end Dd
